import Mathlib

/-!
Verification of the gateway code of `golang-mcp-intermediate-server`.

The repository contains several variants of an MCP gateway process:
* `src/unnamed/part_001` (first document): `main`/`initializeMCPClients`/
  `initializeAndListTools`/`handleGatewayRequest`/`shutdownMCPClients`;
* `src/unnamed/part_001` (third document): `setupClients`/`handleToolCall`;
* `src/unnamed/part_002`: `loadConfig`/`resolveEnvVariables`/
  `initializeMCPClients`/`initializeAndListTools`/`shutdownMCPClients`/`main`;
* `src/MCP_SERVER/external_mcp/externalmcp_test.go` (second document):
  `handleListTools`/`handleCallTool`.

The shallow embedding below models each of these functions over abstract
backend behaviours: a backend is represented by the responses it would give
to the calls the gateway can make (initialize, list tools, call tool, kill,
wait).  Fatal exits (`log.Fatalf`) and the index-out-of-range panic are made
explicit constructors of the corresponding outcome types.
-/

/-- `true` exactly when an `Except` value is an error.  Mirrors the Go
`err != nil` checks. -/
def exFailed {e a : Type} : Except e a → Bool
  | Except.ok _ => false
  | Except.error _ => true

/-! ### `handleGatewayRequest` (src/unnamed/part_001, first document, lines 166-197)

The handler receives `args Input` (a query string) and the slice
`mcpClients`.  For client index 0 it calls tool `hello`, for every other
index it calls tool `search`; each result is rendered to a string
(`"MCP %d error: %v"` or `"MCP %d: %v"`), and finally
`fmt.Sprintf("%s\n%s", responses[0], responses[1])` unconditionally indexes
the first two entries of `responses` and the handler returns the combined
text with a `nil` Go error. -/

/-- A backend client as seen by `handleGatewayRequest`: `call tool query`
returns the backend's payload text or a Go error. -/
structure GatewayClient where
  call : String → String → Except String String

/-- Result of running `handleGatewayRequest`: the handler either panics
(index out of range on `responses[0]`/`responses[1]`), or returns a response
text together with a `nil` error, or would return a non-nil Go error
(`goError`, which the source never produces). -/
inductive HandlerOutcome
  | panicked
  | ok (respText : String)
  | goError (msg : String)
deriving DecidableEq

/-- The string appended to `responses` for the client at index `i`:
index 0 is sent tool `hello`, every other index tool `search`; errors are
rendered as text (`"MCP %d error: %v"`), successes as `"MCP %d: %v"`. -/
def gatewayEntry (query : String) (i : Nat) (c : GatewayClient) : String :=
  match (if i = 0 then c.call "hello" query else c.call "search" query) with
  | Except.error e => "MCP " ++ toString (i + 1) ++ " error: " ++ e
  | Except.ok content => "MCP " ++ toString (i + 1) ++ ": " ++ content

/-- The `responses` slice built by the loop in `handleGatewayRequest`,
starting at index `i`. -/
def gatewayResponses (query : String) : Nat → List GatewayClient → List String
  | _, [] => []
  | i, c :: rest => gatewayEntry query i c :: gatewayResponses query (i + 1) rest

/-- Model of `handleGatewayRequest`: build `responses` over all clients, then
combine `responses[0]` and `responses[1]`; fewer than two entries is an
index-out-of-range panic.  The source's only `return` is
`mcp.NewToolResponse(...), nil`, so no `goError` is ever produced. -/
def handleGatewayRequest (query : String) (clients : List GatewayClient) : HandlerOutcome :=
  match gatewayResponses query 0 clients with
  | r0 :: r1 :: _ => HandlerOutcome.ok (r0 ++ "\n" ++ r1)
  | _ => HandlerOutcome.panicked

/-- Backend A of the spec scenario: Ready, exposes only `hello`
(standing for the `echo`-style tool fleet), payload `A-payload`. -/
def clientA : GatewayClient :=
  ⟨fun tool _ => if tool = "hello" then Except.ok "A-payload" else Except.error "unknown tool"⟩

/-- Backend B of the spec scenario: Ready, exposes only `search`,
payload `B-payload`. -/
def clientB : GatewayClient :=
  ⟨fun tool _ => if tool = "search" then Except.ok "B-payload" else Except.error "unknown tool"⟩

/-- A client whose every call succeeds with payload `p`. -/
def stubClient : GatewayClient := ⟨fun _ _ => Except.ok "p"⟩

/-! ### `handleToolCall` (src/unnamed/part_001, third document, lines 425-473)

The handler first lists HelloMCP's tools; when the listing succeeds and the
requested name is present it calls HelloMCP and returns on success.  In all
other cases it lists ExternalMCP's tools — `log.Fatalf` on error, which
terminates the gateway process — and then forwards the request to
ExternalMCP's `tools/call` wrapper; if that also fails it returns the Go
error `no server could handle the tool <name>`. -/

/-- Arguments of a tool call: either the raw inbound arguments or the
`{"name": ..., "arguments": ...}` wrapper built when forwarding to
ExternalMCP's `tools/call`. -/
inductive CallArgs
  | plain (raw : String)
  | wrapped (name : String) (inner : CallArgs)
deriving DecidableEq

/-- A backend as seen by `handleToolCall`: the result of `ListTools` and of
`CallTool name args`. -/
structure BackendClient where
  listTools : Except String (List String)
  callTool : String → CallArgs → Except String String

/-- Result of `handleToolCall`: a successful payload, a returned Go error,
or a `log.Fatalf` (the gateway process exits). -/
inductive ToolCallOutcome
  | ok (payload : String)
  | err (msg : String)
  | fatal (msg : String)
deriving DecidableEq

/-- The final error message of `handleToolCall`
(`fmt.Errorf("no server could handle the tool %s", req.Name)`). -/
def noServerMsg (name : String) : String :=
  "no server could handle the tool " ++ name

/-- Model of `handleToolCall`.  `hello` and `external` are the two clients
set up by `setupClients`. -/
def handleToolCall (hello external : BackendClient) (name : String) (args : CallArgs) :
    ToolCallOutcome :=
  let afterHello : Option String :=
    match hello.listTools with
    | Except.error _ => none
    | Except.ok tools =>
      if name ∈ tools then
        match hello.callTool name args with
        | Except.ok resp => some resp
        | Except.error _ => none
      else none
  match afterHello with
  | some resp => ToolCallOutcome.ok resp
  | none =>
    match external.listTools with
    | Except.error e => ToolCallOutcome.fatal ("Failed to list ExternalMCP tools: " ++ e)
    | Except.ok _ =>
      match external.callTool "tools/call" (CallArgs.wrapped name args) with
      | Except.ok resp => ToolCallOutcome.ok resp
      | Except.error _ => ToolCallOutcome.err (noServerMsg name)

/-- A healthy HelloMCP backend exposing only `echo`. -/
def helloOkClient : BackendClient :=
  ⟨Except.ok ["echo"],
   fun t _ => if t = "echo" then Except.ok "echoed" else Except.error "unknown tool"⟩

/-- A misbehaving ExternalMCP backend: every exchange fails with a broken
pipe. -/
def externalBrokenClient : BackendClient :=
  ⟨Except.error "pipe closed", fun _ _ => Except.error "pipe closed"⟩

/-- A HelloMCP backend that lists a tool but fails to execute it. -/
def helloListsButFails : BackendClient :=
  ⟨Except.ok ["search"], fun _ _ => Except.error "boom"⟩

/-- An ExternalMCP backend whose listing succeeds but whose `tools/call`
wrapper fails. -/
def externalCallFails : BackendClient :=
  ⟨Except.ok ["tools/call"], fun _ _ => Except.error "bang"⟩

/-! ### `handleCallTool` (src/MCP_SERVER/external_mcp/externalmcp_test.go,
second document, lines 270-289)

The returned closure iterates over `mcpClients` in slice order, dispatching
`client.CallTool(ctx, args.Name, args.Arguments)` to each; the first
successful response is returned with a `nil` error.  When every client
fails, it returns a `ToolResponse` whose text is `method not found`
together with a `nil` error. -/

/-- A backend as seen by `handleCallTool`: only `CallTool` is used. -/
structure SimpleClient where
  callTool : String → CallArgs → Except String String

/-- Model of `handleCallTool`, instrumented with the number of `CallTool`
dispatches the loop performs.  The first component is the value returned to
the caller (`Except.ok` means the Go error is `nil`); the second counts how
many backends were dispatched to. -/
def handleCallToolGo : List SimpleClient → String → CallArgs → Except String String × Nat
  | [], _, _ => (Except.ok "method not found", 0)
  | c :: rest, name, args =>
    match c.callTool name args with
    | Except.ok resp => (Except.ok resp, 1)
    | Except.error _ =>
      ((handleCallToolGo rest name args).1, (handleCallToolGo rest name args).2 + 1)

/-- The value `handleCallTool` returns to its caller. -/
def handleCallTool (clients : List SimpleClient) (name : String) (args : CallArgs) :
    Except String String :=
  (handleCallToolGo clients name args).1

/-- How many backends `handleCallTool` dispatches the call to. -/
def dispatchCount (clients : List SimpleClient) (name : String) (args : CallArgs) : Nat :=
  (handleCallToolGo clients name args).2

/-- The backend that wins a call routed by `handleCallTool`: the first
client in iteration order whose `CallTool` succeeds, together with its
payload.  `none` means every client failed (the loop falls through to the
`method not found` response). -/
def winner : List (String × SimpleClient) → String → CallArgs → Option (String × String)
  | [], _, _ => none
  | (nm, c) :: rest, name, args =>
    match c.callTool name args with
    | Except.ok resp => some (nm, resp)
    | Except.error _ => winner rest name args

/-- A backend that answers `ping` with `pong-a`. -/
def pingA : SimpleClient :=
  ⟨fun n _ => if n = "ping" then Except.ok "pong-a" else Except.error "tool not found"⟩

/-- A backend that answers `ping` with `pong-b`. -/
def pingB : SimpleClient :=
  ⟨fun n _ => if n = "ping" then Except.ok "pong-b" else Except.error "tool not found"⟩

/-- A backend owning no tools at all: every call fails. -/
def ownsNothing : SimpleClient := ⟨fun _ _ => Except.error "tool not found"⟩

/-- A failing backend whose error message is `boom`. -/
def failingBoom : SimpleClient := ⟨fun _ _ => Except.error "boom"⟩

/-- A failing backend whose error message is `bang`. -/
def failingBang : SimpleClient := ⟨fun _ _ => Except.error "bang"⟩

/-! ### `shutdownMCPClients` (src/unnamed/part_002 lines 195-216; the copy in
src/unnamed/part_001 lines 199-217 is identical)

After a best-effort `Ping` of every client (which only logs), the function
loops over `stdIOCmds`: `cmd.Process.Kill()` (error only logged), then
`err := cmd.Wait()`; `if err != nil { return }` returns from the whole
function, so commands after the first one whose `Wait` errors are neither
killed nor waited on. -/

/-- Observable behaviour of one spawned command during shutdown: does
`Process.Kill` return an error (it is only logged), and does `cmd.Wait`
return an error (it triggers the early `return`). -/
structure CmdBehavior where
  killErr : Option String
  waitErr : Option String
deriving DecidableEq

/-- The kill/wait loop of `shutdownMCPClients`: for each command, the pair
records whether the kill step and the wait step were executed for it.  A
non-`nil` `Wait` error returns from the function, leaving the remaining
commands untouched (`(false, false)`). -/
def shutdownKillWait : List CmdBehavior → List (Bool × Bool)
  | [] => []
  | c :: rest =>
    match c.waitErr with
    | some _ => (true, true) :: rest.map (fun _ => (false, false))
    | none => (true, true) :: shutdownKillWait rest

/-- Behaviour of one client's shutdown `Ping` (only logged, no effect on the
kill loop). -/
structure ClientPingBehavior where
  pingErr : Option String
deriving DecidableEq

/-- Model of `shutdownMCPClients`: the `Ping` loop over `mcpClients` only
logs, so the observable effect is the kill/wait loop over `stdIOCmds`. -/
def shutdownMCPClients (mcpClients : List ClientPingBehavior) (stdIOCmds : List CmdBehavior) :
    List (Bool × Bool) :=
  shutdownKillWait stdIOCmds

/-! ### `initializeMCPClients` (src/unnamed/part_002 lines 107-157; the copy
in src/unnamed/part_001 lines 90-134 differs only in not passing args/env)

For each configured server (in Go map iteration order) the function creates
the three pipes and starts the command; every failure is a `log.Fatalf`,
which terminates the whole gateway process. -/

/-- Spawn behaviour of one configured backend: whether each pipe creation
and the `cmd.Start()` call fails. -/
structure SpawnBehavior where
  stdinPipeErr : Option String
  stdoutPipeErr : Option String
  stderrPipeErr : Option String
  startErr : Option String
deriving DecidableEq

/-- Outcome of `initializeMCPClients`: a `log.Fatalf` (gateway process
exits, exit code non-zero) or the list of backend names for which a client
was created. -/
inductive InitOutcome
  | fatal (msg : String)
  | ok (started : List String)
deriving DecidableEq

/-- The per-backend body of the loop in `initializeMCPClients`: the first
failing step yields the corresponding `log.Fatalf` message. -/
def spawnOne (name : String) (b : SpawnBehavior) : Except String Unit :=
  match b.stdinPipeErr with
  | some e => Except.error ("Failed to create stdin pipe for " ++ name ++ ": " ++ e)
  | none =>
    match b.stdoutPipeErr with
    | some e => Except.error ("Failed to create stdout pipe for " ++ name ++ ": " ++ e)
    | none =>
      match b.stderrPipeErr with
      | some e => Except.error ("Failed to create stderr pipe for " ++ name ++ ": " ++ e)
      | none =>
        match b.startErr with
        | some e => Except.error ("Failed to start command " ++ name ++ ": " ++ e)
        | none => Except.ok ()

/-- Model of `initializeMCPClients` over the configured backends in
iteration order: the first spawn failure is fatal for the whole gateway;
otherwise every backend is started and a client created for it. -/
def initializeMCPClients : List (String × SpawnBehavior) → InitOutcome
  | [] => InitOutcome.ok []
  | (name, b) :: rest =>
    match spawnOne name b with
    | Except.error m => InitOutcome.fatal m
    | Except.ok _ =>
      match initializeMCPClients rest with
      | InitOutcome.fatal m => InitOutcome.fatal m
      | InitOutcome.ok started => InitOutcome.ok (name :: started)

/-! ### `initializeAndListTools` and `main` (src/unnamed/part_002 lines
160-192 and 42-64)

`initializeAndListTools` initializes each client with a 15s timeout and
lists its tools; both failures are only logged (`continue`).  It has no
fatal path and never reports how many clients are Ready.  `main` then always
proceeds to `startHTTPServer`, whatever the number of Ready clients. -/

/-- Post-spawn behaviour of one client: the `Initialize` handshake error (if
any), the `ListTools` error (if any), and the advertised tools. -/
structure ClientInitBehavior where
  initErr : Option String
  listErr : Option String
  tools : List String
deriving DecidableEq

/-- Number of Ready connections: clients whose `Initialize` handshake
succeeded. -/
def readyCount (clients : List ClientInitBehavior) : Nat :=
  (clients.filter (fun c => c.initErr.isNone)).length

/-- Model of `initializeAndListTools`: the tool lists that get logged.  A
failed handshake or listing is skipped with `continue`; the function always
returns normally. -/
def initializeAndListTools (clients : List ClientInitBehavior) : List (List String) :=
  clients.filterMap (fun c =>
    if c.initErr.isNone && c.listErr.isNone then some c.tools else none)

/-- Full behaviour of one configured backend: how it spawns and how it
answers the handshake and listing afterwards. -/
structure BackendBehavior where
  spawn : SpawnBehavior
  init : ClientInitBehavior
deriving DecidableEq

/-- Observable outcome of `main` in src/unnamed/part_002: either the gateway
process exits with a non-zero code (`log.Fatalf` during startup), or it
reaches `startHTTPServer` and serves, with the recorded number of Ready
backends. -/
inductive MainOutcome
  | serving (ready : Nat)
  | exitNonZero
deriving DecidableEq

/-- Model of `main`: spawn all clients (any spawn failure is a fatal exit),
then run `initializeAndListTools` (which only logs) and unconditionally
start the HTTP server.  There is no check on the number of Ready
backends. -/
def mainGateway (cfgs : List (String × BackendBehavior)) : MainOutcome :=
  match initializeMCPClients (cfgs.map (fun p => (p.1, p.2.spawn))) with
  | InitOutcome.fatal _ => MainOutcome.exitNonZero
  | InitOutcome.ok _ => MainOutcome.serving (readyCount (cfgs.map (fun p => p.2.init)))

/-- A backend that spawns successfully but whose handshake times out. -/
def deadBackend : BackendBehavior :=
  ⟨⟨none, none, none, none⟩, ⟨some "context deadline exceeded", none, []⟩⟩

/-! ### `resolveEnvVariables` (src/unnamed/part_002 lines 90-104)

For every `env` value of every configured server: when the value has prefix
`${` and suffix `}` (Go `strings.HasPrefix`/`strings.HasSuffix`), the name
is obtained with `strings.Trim(value, "${}")` — which removes every leading
and trailing `$`, `{`, `}` character — and looked up with `os.LookupEnv`;
a hit replaces the value, a miss is `log.Fatalf`.  Other values are left
unchanged.  Strings are modelled as `List Char`. -/

/-- A character of the `strings.Trim` cutset literal passed in the source
(dollar and both braces). -/
def isCutsetChar (c : Char) : Bool :=
  c == '$' || c == '{' || c == '}'

/-- Go `strings.Trim(value, cutset)` for the source's cutset: remove all
leading and all trailing cutset characters. -/
def goTrim (s : List Char) : List Char :=
  ((s.dropWhile isCutsetChar).reverse.dropWhile isCutsetChar).reverse

/-- The source's placeholder test:
`strings.HasPrefix(value, "${") && strings.HasSuffix(value, "}")`. -/
def isPlaceholderShaped (value : List Char) : Bool :=
  (['$', '{'] : List Char).isPrefixOf value && (['}'] : List Char).isSuffixOf value

/-- What `resolveEnvVariables` does to a single `env` value.  `osEnv` is the
gateway process's own environment (`os.LookupEnv`); the result is `none`
when the code runs `log.Fatalf` (referenced variable unset), otherwise the
value stored back into the configuration. -/
def resolveEnvValue (osEnv : List Char → Option (List Char)) (value : List Char) :
    Option (List Char) :=
  if isPlaceholderShaped value then osEnv (goTrim value) else some value

/-- `resolveEnvVariables` over one server's `env` map (as an association
list): the first unset reference is fatal. -/
def resolveEnvList (osEnv : List Char → Option (List Char)) :
    List (List Char × List Char) → Option (List (List Char × List Char))
  | [] => some []
  | (k, v) :: rest =>
    match resolveEnvValue osEnv v with
    | none => none
    | some v2 =>
      match resolveEnvList osEnv rest with
      | none => none
      | some r => some ((k, v2) :: r)

/-- A character allowed in an environment-variable name (`NAME` in the
spec's `${NAME}` form): alphanumeric or underscore. -/
def isEnvNameChar (c : Char) : Bool :=
  c.isAlphanum || c == '_'

/-- The spec-side notion of a value `exactly of the literal form ${NAME}`:
the name between `${` and `}` when it is a nonempty well-formed
environment-variable name, `none` otherwise.  This definition follows the
spec's words and is compared against the source-derived
`resolveEnvValue`. -/
def specPlaceholderName (value : List Char) : Option (List Char) :=
  let mid := (value.drop 2).dropLast
  if (['$', '{'] : List Char).isPrefixOf value
      && (['}'] : List Char).isSuffixOf value
      && !mid.isEmpty
      && mid.all isEnvNameChar
  then some mid else none

/-- An `env` value that starts with `${` and ends with `}` without being
exactly of the literal form `${NAME}` (its middle contains a space). -/
def exampleValue : List Char := ['$', '{', 'A', ' ', 'B', '}']

/-- An environment in which no variable is set. -/
def emptyEnv : List Char → Option (List Char) := fun _ => none

/-- An environment in which every variable is set to `v`. -/
def allSetEnv : List Char → Option (List Char) := fun _ => some ['v']

/-! ### Formalizations of the claims that fail on the code -/

/-- Claim C4 as stated: a failure to spawn one backend is handled locally —
whenever at least one configured backend spawns successfully, startup does
not abort, and every backend that spawns successfully is started. -/
def claimC4 : Prop :=
  ∀ cfgs : List (String × SpawnBehavior),
    (∃ p ∈ cfgs, exFailed (spawnOne p.1 p.2) = false) →
    ∃ started, initializeMCPClients cfgs = InitOutcome.ok started ∧
      ∀ p ∈ cfgs, exFailed (spawnOne p.1 p.2) = false → p.1 ∈ started

/-- Claim C5 as stated: when zero backend connections are Ready after
startup, the gateway process exits with a non-zero code instead of
serving. -/
def claimC5 : Prop :=
  ∀ cfgs : List (String × BackendBehavior),
    readyCount (cfgs.map (fun p => p.2.init)) = 0 →
    mainGateway cfgs = MainOutcome.exitNonZero

/-- Claim C6 as stated: for two runs over the same configuration — Go map
iteration order is unspecified, so a run observes an arbitrary permutation
of the configured backends — the backend winning a duplicated tool name is
the same in both runs. -/
def claimC6 : Prop :=
  ∀ (cfg order1 order2 : List (String × SimpleClient)) (name : String) (args : CallArgs),
    order1.Perm cfg → order2.Perm cfg →
    winner order1 name args = winner order2 name args

/-- Claim C7 as stated: a call to a tool name owned by no backend (every
backend would reject it) is answered without dispatching to any backend. -/
def claimC7 : Prop :=
  ∀ (clients : List SimpleClient) (name : String) (args : CallArgs),
    (∀ c ∈ clients, exFailed (c.callTool name args) = true) →
    dispatchCount clients name args = 0

/-- Claim C8 as stated: when every candidate backend fails, the caller of
`handleCallTool` receives an error result (not a success-shaped
response). -/
def claimC8 : Prop :=
  ∀ (clients : List SimpleClient) (name : String) (args : CallArgs),
    (∀ c ∈ clients, exFailed (c.callTool name args) = true) →
    ∃ msg, handleCallTool clients name args = Except.error msg

/-- Claim C9 as stated: a value exactly of the literal form `${NAME}` is
replaced by the gateway's environment variable `NAME` (fatal when unset),
and every other value is left unchanged. -/
def claimC9 : Prop :=
  ∀ (osEnv : List Char → Option (List Char)) (value : List Char),
    resolveEnvValue osEnv value =
      (match specPlaceholderName value with
       | some nm => osEnv nm
       | none => some value)

/-! ### Concrete configurations used by witnesses and counterexamples -/

/-- Two configured backends: the first fails `cmd.Start()`, the second would
spawn fine. -/
def cfgSpawnMixed : List (String × SpawnBehavior) :=
  [("a", ⟨none, none, none, some "no such file"⟩), ("b", ⟨none, none, none, none⟩)]

/-- Two configured backends that both spawn fine. -/
def cfgSpawnGood : List (String × SpawnBehavior) :=
  [("a", ⟨none, none, none, none⟩), ("b", ⟨none, none, none, none⟩)]

/-- Two Ready backends that both export `ping`, in configuration listing
order. -/
def dupCfg : List (String × SimpleClient) := [("a", pingA), ("b", pingB)]

/-- The same two backends observed in the opposite Go map iteration
order. -/
def dupCfgSwapped : List (String × SimpleClient) := [("b", pingB), ("a", pingA)]

/-! ## Theorems -/

/-! ### Shared helper lemmas -/

/-- When every configured backend spawns successfully,
`initializeMCPClients` starts all of them, in iteration order. -/
theorem initializeMCPClients_ok_of_forall (cfgs : List (String × SpawnBehavior))
    (h : ∀ p ∈ cfgs, exFailed (spawnOne p.1 p.2) = false) :
    initializeMCPClients cfgs = InitOutcome.ok (cfgs.map Prod.fst) := by
  induction cfgs with
  | nil => rfl
  | cons p rest ih =>
    obtain ⟨name, b⟩ := p
    have hp := h (name, b) (List.mem_cons_self _ _)
    cases hs : spawnOne name b with
    | error m => rw [hs] at hp; simp [exFailed] at hp
    | ok u =>
      have hrest := ih (fun q hq => h q (List.mem_cons_of_mem _ hq))
      simp [initializeMCPClients, hs, hrest]

/-- A single spawn failure anywhere in the configuration makes
`initializeMCPClients` abort the whole gateway with `log.Fatalf`. -/
theorem initializeMCPClients_fatal_of_exists (cfgs : List (String × SpawnBehavior))
    (h : ∃ p ∈ cfgs, exFailed (spawnOne p.1 p.2) = true) :
    ∃ m, initializeMCPClients cfgs = InitOutcome.fatal m := by
  induction cfgs with
  | nil => simp at h
  | cons p rest ih =>
    obtain ⟨name, b⟩ := p
    cases hs : spawnOne name b with
    | error m => exact ⟨m, by simp [initializeMCPClients, hs]⟩
    | ok u =>
      obtain ⟨q, hq, hfail⟩ := h
      rcases List.mem_cons.mp hq with h1 | h2
      · rw [h1] at hfail; rw [hs] at hfail; simp [exFailed] at hfail
      · obtain ⟨m, hm⟩ := ih ⟨q, h2, hfail⟩
        exact ⟨m, by simp [initializeMCPClients, hs, hm]⟩

/-! ### Claim C1 -/

/-- Claim C1 (code bug): with backend A Ready (exposing `hello`) and backend
B Ready (exposing `search`), the gateway's relay handler does not return
only the owning backend's payload for a `search`-style invocation: it
dispatches to both clients positionally and returns a combined text that
contains backend A's payload alongside backend B's. -/
theorem gateway_returns_both_payloads :
    handleGatewayRequest "find the docs" [clientA, clientB] =
      HandlerOutcome.ok ("MCP 1: A-payload" ++ "\n" ++ "MCP 2: B-payload") := by
  decide

/-! ### Claim C2 -/

/-- Claim C2 (code bug): during shutdown, when the first spawned command's
`Wait` returns an error — the normal case after a successful `Kill` — the
early `return` inside the loop abandons the remaining commands: the second
command is neither killed nor reaped. -/
theorem shutdown_abandons_later_processes :
    shutdownMCPClients [] [⟨none, some "signal: killed"⟩, ⟨none, none⟩] =
      [(true, true), (false, false)] := by
  decide

/-! ### Claim C3 -/

/-- Claim C3 (code bug): a single misbehaving backend terminates the whole
gateway process: when ExternalMCP's `ListTools` fails, `handleToolCall`
calls `log.Fatalf` instead of returning a response or an error to the
caller. -/
theorem externals_list_failure_kills_gateway :
    handleToolCall helloOkClient externalBrokenClient "search" (CallArgs.plain "q") =
      ToolCallOutcome.fatal "Failed to list ExternalMCP tools: pipe closed" := by
  decide

/-! ### Claim C7 -/

/-- Claim C7 counterexample: for a tool name owned by no backend, the claim
as stated requires an immediate `NotFound` with no dispatch to any backend;
`handleCallTool` instead dispatches the call to every backend. -/
theorem unowned_tool_is_dispatched : ¬ claimC7 := by
  intro h
  exact absurd (h [ownsNothing, ownsNothing] "nope" (CallArgs.plain "x") (by decide)) (by decide)

/-- Claim C7 (amended): a call to a tool name owned by no backend is
dispatched to every backend in iteration order, and only after all of them
decline does `handleCallTool` return — with the fixed `method not found`
text rather than an immediate `NotFound`. -/
theorem handleCallTool_unowned_contacts_every_backend (clients : List SimpleClient)
    (name : String) (args : CallArgs)
    (h : ∀ c ∈ clients, exFailed (c.callTool name args) = true) :
    handleCallToolGo clients name args = (Except.ok "method not found", clients.length) := by
  induction clients with
  | nil => rfl
  | cons c rest ih =>
    have hc := h c (List.mem_cons_self _ _)
    cases hcall : c.callTool name args with
    | ok r => rw [hcall] at hc; simp [exFailed] at hc
    | error e =>
      have hrest := ih (fun q hq => h q (List.mem_cons_of_mem _ hq))
      simp [handleCallToolGo, hcall, hrest]

/-- Witness for the amended C7 theorem at a concrete two-backend world. -/
theorem handleCallTool_unowned_contacts_every_backend_witness :
    handleCallToolGo [ownsNothing, ownsNothing] "nope" (CallArgs.plain "x") =
      (Except.ok "method not found", ([ownsNothing, ownsNothing] : List SimpleClient).length) :=
  handleCallTool_unowned_contacts_every_backend [ownsNothing, ownsNothing] "nope"
    (CallArgs.plain "x") (by decide)

/-! ### Claim C8 -/

/-- Claim C8 counterexample: when every candidate backend fails,
`handleCallTool` returns a success-shaped `method not found` response with a
`nil` Go error — not an error result, and carrying no underlying cause. -/
theorem all_fail_returns_success_shape : ¬ claimC8 := by
  intro h
  obtain ⟨msg, hmsg⟩ := h [failingBoom, failingBang] "search" (CallArgs.plain "q") (by decide)
  rw [show handleCallTool [failingBoom, failingBang] "search" (CallArgs.plain "q") =
        Except.ok "method not found" from rfl] at hmsg
  exact Except.noConfusion hmsg

/-- Claim C8 (amended): when a resolvable tool's candidates all fail, the
caller receives a terminal all-backends-failed outcome that does not carry
the last per-candidate error: `handleToolCall` returns the error
`no server could handle the tool <name>`, a function of the tool name only,
whatever the backend error messages were. -/
theorem handleToolCall_all_fail_error_shape (hello external : BackendClient)
    (name : String) (args : CallArgs) (tools1 tools2 : List String) (e1 e2 : String)
    (hl : hello.listTools = Except.ok tools1) (hmem : name ∈ tools1)
    (hc : hello.callTool name args = Except.error e1)
    (hx : external.listTools = Except.ok tools2)
    (hxc : external.callTool "tools/call" (CallArgs.wrapped name args) = Except.error e2) :
    handleToolCall hello external name args = ToolCallOutcome.err (noServerMsg name) := by
  simp [handleToolCall, hl, hmem, hc, hx, hxc]

/-- Witness for the amended C8 theorem: concrete backends whose failures
carry the causes `boom` and `bang`, neither of which reaches the caller. -/
theorem handleToolCall_all_fail_error_shape_witness :
    handleToolCall helloListsButFails externalCallFails "search" (CallArgs.plain "q") =
      ToolCallOutcome.err (noServerMsg "search") :=
  handleToolCall_all_fail_error_shape helloListsButFails externalCallFails "search"
    (CallArgs.plain "q") ["search"] ["tools/call"] "boom" "bang" rfl (by decide) rfl rfl rfl

/-! ### Claim C10 -/

/-- Claim C10: `handleGatewayRequest` never returns a Go error to its caller
(per-backend errors are embedded as text), and it unconditionally indexes
`responses[0]` and `responses[1]`: with fewer than two configured clients it
panics with an index out of range, with two or more it returns a combined
response. -/
theorem handleGatewayRequest_shape (query : String) (clients : List GatewayClient) :
    (∀ m, handleGatewayRequest query clients ≠ HandlerOutcome.goError m) ∧
    (clients.length < 2 → handleGatewayRequest query clients = HandlerOutcome.panicked) ∧
    (2 ≤ clients.length → ∃ t, handleGatewayRequest query clients = HandlerOutcome.ok t) := by
  match clients with
  | [] =>
    refine ⟨?_, ?_, ?_⟩
    · intro m hcontra; exact HandlerOutcome.noConfusion hcontra
    · intro _; rfl
    · intro hge; simp at hge
  | [c] =>
    refine ⟨?_, ?_, ?_⟩
    · intro m hcontra; exact HandlerOutcome.noConfusion hcontra
    · intro _; rfl
    · intro hge; simp at hge
  | a :: b :: rest =>
    refine ⟨?_, ?_, ?_⟩
    · intro m hcontra
      rw [show handleGatewayRequest query (a :: b :: rest) =
            HandlerOutcome.ok (gatewayEntry query 0 a ++ "\n" ++ gatewayEntry query 1 b)
          from rfl] at hcontra
      exact HandlerOutcome.noConfusion hcontra
    · intro hlt; simp at hlt; omega
    · intro _
      exact ⟨gatewayEntry query 0 a ++ "\n" ++ gatewayEntry query 1 b, rfl⟩

/-- Witness for C10: zero clients panic, two stub clients produce a combined
response. -/
theorem handleGatewayRequest_shape_witness :
    handleGatewayRequest "q" [] = HandlerOutcome.panicked ∧
    ∃ t, handleGatewayRequest "q" [stubClient, stubClient] = HandlerOutcome.ok t :=
  ⟨(handleGatewayRequest_shape "q" []).2.1 (by decide),
   (handleGatewayRequest_shape "q" [stubClient, stubClient]).2.2 (by decide)⟩

/-! ### Claim C4 -/

/-- Claim C4 counterexample: a configuration where backend `a` fails
`cmd.Start()` and backend `b` would spawn fine; the claim requires startup
of `b` to proceed, but `initializeMCPClients` aborts the whole gateway with
`log.Fatalf` on `a`'s failure. -/
theorem one_spawn_failure_aborts_startup : ¬ claimC4 := by
  intro h
  obtain ⟨started, heq, -⟩ :=
    h cfgSpawnMixed ⟨("b", ⟨none, none, none, none⟩), by decide, by decide⟩
  rw [show initializeMCPClients cfgSpawnMixed =
        InitOutcome.fatal "Failed to start command a: no such file" from rfl] at heq
  exact InitOutcome.noConfusion heq

/-- Claim C4 (amended): a failure to create a pipe for, or to start, any one
backend's process is fatal to the whole gateway — `initializeMCPClients`
aborts with `log.Fatalf` and no further backend is started — while a
configuration whose every backend spawns successfully starts them all. -/
theorem initializeMCPClients_spawn_fatality (cfgs : List (String × SpawnBehavior)) :
    ((∃ p ∈ cfgs, exFailed (spawnOne p.1 p.2) = true) →
        ∃ m, initializeMCPClients cfgs = InitOutcome.fatal m) ∧
    ((∀ p ∈ cfgs, exFailed (spawnOne p.1 p.2) = false) →
        initializeMCPClients cfgs = InitOutcome.ok (cfgs.map Prod.fst)) :=
  ⟨initializeMCPClients_fatal_of_exists cfgs, initializeMCPClients_ok_of_forall cfgs⟩

/-- Witness for the amended C4 theorem: the mixed configuration is fatal,
the all-good configuration starts both backends. -/
theorem initializeMCPClients_spawn_fatality_witness :
    (∃ m, initializeMCPClients cfgSpawnMixed = InitOutcome.fatal m) ∧
    initializeMCPClients cfgSpawnGood = InitOutcome.ok (cfgSpawnGood.map Prod.fst) :=
  ⟨(initializeMCPClients_spawn_fatality cfgSpawnMixed).1
      ⟨("a", ⟨none, none, none, some "no such file"⟩), by decide, by decide⟩,
   (initializeMCPClients_spawn_fatality cfgSpawnGood).2 (by decide)⟩

/-! ### Claim C5 -/

/-- Claim C5 counterexample: both backends spawn but both handshakes fail,
so zero connections are Ready; the claim requires a non-zero exit, but
`main` proceeds to `startHTTPServer` and serves. -/
theorem zero_ready_still_serves : ¬ claimC5 := by
  intro h
  have h0 := h [("a", deadBackend), ("b", deadBackend)] (by decide)
  rw [show mainGateway [("a", deadBackend), ("b", deadBackend)] = MainOutcome.serving 0
      from by decide] at h0
  exact MainOutcome.noConfusion h0

/-- Claim C5 (amended): when every backend spawns successfully, the gateway
never treats the number of Ready connections as fatal: `main` proceeds to
serve whatever that number is — including zero, since `initializeAndListTools`
only logs handshake failures. -/
theorem mainGateway_serves_with_zero_ready (cfgs : List (String × BackendBehavior))
    (h : ∀ p ∈ cfgs, exFailed (spawnOne p.1 p.2.spawn) = false) :
    mainGateway cfgs = MainOutcome.serving (readyCount (cfgs.map (fun p => p.2.init))) := by
  have hok := initializeMCPClients_ok_of_forall (cfgs.map (fun p => (p.1, p.2.spawn)))
    (by
      intro q hq
      obtain ⟨p, hp, rfl⟩ := List.mem_map.mp hq
      exact h p hp)
  simp [mainGateway, hok]

/-- Witness for the amended C5 theorem: two spawned backends whose
handshakes both time out; the gateway serves with zero Ready backends. -/
theorem mainGateway_serves_with_zero_ready_witness :
    mainGateway [("a", deadBackend), ("b", deadBackend)] =
      MainOutcome.serving
        (readyCount ([("a", deadBackend), ("b", deadBackend)].map (fun p => p.2.init))) :=
  mainGateway_serves_with_zero_ready [("a", deadBackend), ("b", deadBackend)] (by decide)

/-! ### Claim C6 -/

/-- Claim C6 counterexample: the same two-backend configuration observed in
two Go map iteration orders — both permutations of the configured set —
resolves the duplicated tool `ping` to backend `a` in one run and to backend
`b` in the other, so the winner is not stable across runs. -/
theorem map_order_changes_winner : ¬ claimC6 := by
  intro h
  have hperm : dupCfgSwapped.Perm dupCfg := List.Perm.swap _ _ _
  have heq := h dupCfg dupCfg dupCfgSwapped "ping" (CallArgs.plain "q")
    (List.Perm.refl _) hperm
  rw [show winner dupCfg "ping" (CallArgs.plain "q") = some ("a", "pong-a") from by decide,
      show winner dupCfgSwapped "ping" (CallArgs.plain "q") = some ("b", "pong-b")
        from by decide] at heq
  exact absurd heq (by decide)

/-- Claim C6 (amended): within one run the resolution is deterministic in
the observed iteration order: the winner of a tool name is exactly the first
backend in that order whose call succeeds, every backend before it having
failed.  Across runs the order itself is unspecified (Go map iteration), so
the winner need not be stable. -/
theorem winner_resolves_first_success (order : List (String × SimpleClient)) (name : String)
    (args : CallArgs) (nm pay : String)
    (h : winner order name args = some (nm, pay)) :
    ∃ pre c post, order = pre ++ (nm, c) :: post ∧
      c.callTool name args = Except.ok pay ∧
      ∀ q ∈ pre, exFailed (q.2.callTool name args) = true := by
  induction order with
  | nil => simp [winner] at h
  | cons p rest ih =>
    obtain ⟨pn, pc⟩ := p
    cases hc : pc.callTool name args with
    | ok r =>
      rw [winner, hc] at h
      obtain ⟨rfl, rfl⟩ : pn = nm ∧ r = pay := by
        have := Option.some.inj h
        exact ⟨congrArg Prod.fst this, congrArg Prod.snd this⟩
      exact ⟨[], pc, rest, rfl, hc, by simp⟩
    | error e =>
      rw [winner, hc] at h
      obtain ⟨pre, c, post, heq, hcall, hpre⟩ := ih h
      refine ⟨(pn, pc) :: pre, c, post, by simp [heq], hcall, ?_⟩
      intro q hq
      rcases List.mem_cons.mp hq with h1 | h2
      · rw [h1]; simp [exFailed, hc]
      · exact hpre q h2

/-- Witness for the amended C6 theorem at the concrete duplicated
configuration: `ping` resolves to backend `a`, the first in the order. -/
theorem winner_resolves_first_success_witness :
    ∃ pre c post, dupCfg = pre ++ (("a" : String), c) :: post ∧
      c.callTool "ping" (CallArgs.plain "q") = Except.ok "pong-a" ∧
      ∀ q ∈ pre, exFailed (q.2.callTool "ping" (CallArgs.plain "q")) = true :=
  winner_resolves_first_success dupCfg "ping" (CallArgs.plain "q") "a" "pong-a" (by decide)

/-! ### Claim C9 -/

/-- A well-formed environment-variable-name character is not in the
`strings.Trim` cutset. -/
theorem nameChar_not_cutset (c : Char) (h : isEnvNameChar c = true) : isCutsetChar c = false := by
  by_cases h1 : c = '$'
  · rw [h1] at h; exact absurd h (by decide)
  by_cases h2 : c = '{'
  · rw [h2] at h; exact absurd h (by decide)
  by_cases h3 : c = '}'
  · rw [h3] at h; exact absurd h (by decide)
  simp [isCutsetChar, h1, h2, h3]

/-- `dropWhile` leaves a list unchanged when no element satisfies the
predicate. -/
theorem dropWhile_eq_self_of_all (p : Char → Bool) (l : List Char)
    (h : ∀ c ∈ l, p c = false) : l.dropWhile p = l := by
  cases l with
  | nil => rfl
  | cons a t => simp [List.dropWhile_cons, h a (List.mem_cons_self _ _)]

/-- `strings.Trim(value, cutset)` recovers exactly the name of a well-formed
placeholder: the name is nonempty and none of its characters is in the
cutset, so only the surrounding dollar-brace frame is removed. -/
theorem goTrim_placeholder (nm : List Char) (hne : nm ≠ [])
    (hall : nm.all isEnvNameChar = true) :
    goTrim (['$', '{'] ++ nm ++ ['}']) = nm := by
  obtain ⟨n0, nrest, rfl⟩ := List.exists_cons_of_ne_nil hne
  have hmem : ∀ c ∈ n0 :: nrest, isCutsetChar c = false := by
    intro c hcmem
    exact nameChar_not_cutset c (List.all_eq_true.mp hall c hcmem)
  have c0 : isCutsetChar n0 = false := hmem n0 (List.mem_cons_self _ _)
  have hstep1 : (['$', '{'] ++ (n0 :: nrest) ++ ['}']).dropWhile isCutsetChar
      = n0 :: (nrest ++ ['}']) := by
    show (('$' :: '{' :: (n0 :: (nrest ++ ['}']))).dropWhile isCutsetChar) = _
    simp [List.dropWhile_cons, c0, show isCutsetChar '$' = true by decide,
      show isCutsetChar '{' = true by decide]
  have hrev : (n0 :: (nrest ++ ['}'])).reverse = '}' :: (n0 :: nrest).reverse := by
    rw [show n0 :: (nrest ++ ['}']) = (n0 :: nrest) ++ ['}'] from rfl, List.reverse_append]
    rfl
  have hstep2 : ('}' :: (n0 :: nrest).reverse).dropWhile isCutsetChar
      = (n0 :: nrest).reverse := by
    rw [List.dropWhile_cons]
    simp only [show isCutsetChar '}' = true from rfl, if_true]
    exact dropWhile_eq_self_of_all isCutsetChar (n0 :: nrest).reverse
      (fun c hc => hmem c (List.mem_reverse.mp hc))
  unfold goTrim
  rw [hstep1, hrev, hstep2, List.reverse_reverse]

/-- Claim C9 counterexample: the value `${A B}` is not exactly of the
literal form `${NAME}` (a space is not a name character), so the claim
requires it to be left unchanged; but the source's prefix/suffix test
accepts it, `strings.Trim` produces the name `A B`, and with that variable
unset the configuration load is fatal instead. -/
theorem trim_misparses_nonname_value : ¬ claimC9 := by
  intro h
  exact absurd (h emptyEnv exampleValue) (by decide)

/-- Claim C9 (amended): every `env` value with prefix `${` and suffix `}` is
treated as a placeholder whose name is the value with all leading and
trailing `$`/`{`/`}` characters trimmed — in particular a value exactly of
the literal form `${NAME}` (nonempty alphanumeric-or-underscore `NAME`) is
replaced by the gateway's environment variable `NAME`, fatal when unset —
and every value not of that prefix/suffix shape is left unchanged. -/
theorem resolveEnvValue_characterization (osEnv : List Char → Option (List Char)) :
    (∀ nm : List Char, nm ≠ [] → nm.all isEnvNameChar = true →
        resolveEnvValue osEnv (['$', '{'] ++ nm ++ ['}']) = osEnv nm) ∧
    (∀ value : List Char, isPlaceholderShaped value = true →
        resolveEnvValue osEnv value = osEnv (goTrim value)) ∧
    (∀ value : List Char, isPlaceholderShaped value = false →
        resolveEnvValue osEnv value = some value) := by
  refine ⟨?_, ?_, ?_⟩
  · intro nm hne hall
    have hpre : (['$', '{'] : List Char).isPrefixOf (['$', '{'] ++ nm ++ ['}']) = true := by
      simp [List.isPrefixOf]
    have hsuf : (['}'] : List Char).isSuffixOf (['$', '{'] ++ nm ++ ['}']) = true := by
      unfold List.isSuffixOf
      rw [show ['$', '{'] ++ nm ++ ['}'] = (['$', '{'] ++ nm) ++ ['}'] by
            simp [List.append_assoc],
          List.reverse_append]
      simp [List.isPrefixOf]
    have hshape : isPlaceholderShaped (['$', '{'] ++ nm ++ ['}']) = true := by
      unfold isPlaceholderShaped
      rw [hpre, hsuf]
      rfl
    rw [resolveEnvValue, if_pos hshape, goTrim_placeholder nm hne hall]
  · intro value hshape
    rw [resolveEnvValue, if_pos hshape]
  · intro value hshape
    simp [resolveEnvValue, hshape]

/-- Witness for the amended C9 theorem: the placeholder for name `A` is
replaced by the environment's value of `A`, and a plain non-placeholder
value is left unchanged. -/
theorem resolveEnvValue_characterization_witness :
    resolveEnvValue allSetEnv (['$', '{'] ++ ['A'] ++ ['}']) = allSetEnv ['A'] ∧
    resolveEnvValue allSetEnv ['x'] = some ['x'] :=
  ⟨(resolveEnvValue_characterization allSetEnv).1 ['A'] (by decide) (by decide),
   (resolveEnvValue_characterization allSetEnv).2.2 ['x'] (by decide)⟩
